import Mathlib

/-
Shallow embedding of src/src/vehicle_bridge.rs from zenoh_carla_bridge.

The bridge connects a simulated Carla vehicle to an Autoware stack over
Zenoh.  Scalar machine floats (f32 and f64 in the source) are modelled as
real numbers; the casts between the two float widths are then the
identity.  External collaborators (the Zenoh transport, the cdr codec,
the Carla actor queries and the carla_ackermann feedback controller) are
modelled at their interface boundary: their results enter the model as
explicit inputs, exactly as the spec scopes them out.  Side effects on
the bus and actor are recorded in an explicit effect trace.
-/

set_option autoImplicit false

namespace ZenohCarlaBridge

/-- Message timestamp.  Field layout taken from its construction sites in
vehicle_bridge.rs (sec and nsec components, both written as 0 there). -/
structure TimeStamp where
  sec : Int
  nsec : Int
deriving DecidableEq

/-- Lateral part of an Ackermann control command; layout from its
construction in VehicleBridge::new (vehicle_bridge.rs lines 49-53). -/
structure AckermannLateralCommand where
  ts : TimeStamp
  steering_tire_angle : ℝ
  steering_tire_rotation_rate : ℝ

/-- Longitudinal part of an Ackermann control command; layout from its
construction in VehicleBridge::new (vehicle_bridge.rs lines 54-59). -/
structure LongitudinalCommand where
  ts : TimeStamp
  speed : ℝ
  acceleration : ℝ
  jerk : ℝ

/-- The motion command stored by the bridge, the value held inside the
Mutex current_ackermann_cmd. -/
structure AckermannControlCommand where
  ts : TimeStamp
  lateral : AckermannLateralCommand
  longitudinal : LongitudinalCommand

/-- Velocity vector of the actor (nalgebra vector returned by
actor.velocity()). -/
structure Vector3 where
  x : ℝ
  y : ℝ
  z : ℝ

/-- Euclidean norm of the velocity vector, as computed by the external
call velocity.norm(). -/
noncomputable def Vector3.norm (v : Vector3) : ℝ :=
  Real.sqrt (v.x ^ 2 + v.y ^ 2 + v.z ^ 2)

/-- Live readings taken from the simulated actor during one tick:
actor.velocity(), actor.get_wheel_steer_angle(FL_Wheel) and the pitch
Euler angle of actor.transform().rotation.  The actor is an external
collaborator, so these enter the model as inputs. -/
structure ActorState where
  velocity : Vector3
  wheel_steer_angle_fl : ℝ
  pitch_radians : ℝ

/-- Header of the published status message (autoware_type StdMsgsHeader);
layout from its construction in pub_current_velocity. -/
structure StdMsgsHeader where
  ts : TimeStamp
  frameid : String

/-- The velocity status message (autoware_type CurrentVelocity); layout
from its construction in pub_current_velocity. -/
structure CurrentVelocity where
  header : StdMsgsHeader
  longitudinal_velocity : ℝ
  lateral_velocity : ℝ
  heading_rate : ℝ

/-- Target request handed to the carla_ackermann controller via
set_target. -/
structure TargetRequest where
  steering_angle : ℝ
  speed : ℝ
  accel : ℝ

/-- Actuation output produced by the carla_ackermann controller step. -/
structure Output where
  throttle : ℝ
  brake : ℝ
  steer : ℝ
  reverse : Bool
  hand_brake : Bool

/-- The carla-side vehicle control command handed to apply_control. -/
structure VehicleControl where
  throttle : ℝ
  steer : ℝ
  brake : ℝ
  hand_brake : Bool
  reverse : Bool
  manual_gear_shift : Bool
  gear : Int

/-- The external feedback controller, modelled at its interface: the only
part of its state this core observes is the target installed by
set_target.  Its control law is a black box, passed around as a
ControlLaw function; its further internal state artifact is not consumed
by the bridge. -/
structure VehicleController where
  target : TargetRequest

/-- Black-box control law of the external controller: maps the installed
target plus (elapsed_sec, current_speed, pitch_radians) to an actuation
output, as in controller.step. -/
abbrev ControlLaw := TargetRequest → ℝ → ℝ → ℝ → Output

/-- A transport-level failure reported by a Zenoh call whose Result the
source unwraps. -/
inductive TransportError where
  | declareFailed
  | putFailed
deriving DecidableEq

/-- Externally visible side effects of one tick, in program order. -/
inductive Effect where
  | publishVelocity (msg : CurrentVelocity)
  | storeSpeed (value : ℝ)
  | setTarget (target : TargetRequest)
  | applyControl (ctrl : VehicleControl)

/-- True exactly on a publishVelocity effect. -/
def Effect.isPublishVelocity : Effect → Bool
  | .publishVelocity _ => true
  | _ => false

/-- True exactly on an applyControl effect. -/
def Effect.isApplyControl : Effect → Bool
  | .applyControl _ => true
  | _ => false

/-- The bridge state: the Command Store content (the value inside the
Mutex current_ackermann_cmd), the AtomicF32 speed scalar, and the
controller.  The transport handles held by the Rust struct are session
resources with no model-visible state. -/
structure VehicleBridge where
  vehicle_name : String
  current_ackermann_cmd : AckermannControlCommand
  speed : ℝ
  controller : VehicleController

/-- The zeroed neutral command installed at construction
(vehicle_bridge.rs lines 47-60). -/
def initial_ackermann_cmd : AckermannControlCommand :=
  { ts := { sec := 0, nsec := 0 }
  , lateral :=
      { ts := { sec := 0, nsec := 0 }
      , steering_tire_angle := 0
      , steering_tire_rotation_rate := 0 }
  , longitudinal :=
      { ts := { sec := 0, nsec := 0 }
      , speed := 0
      , acceleration := 0
      , jerk := 0 } }

/-- VehicleBridge::new.  The controller built from the external physics
query enters as ctrl0.  Each Zenoh declaration (publisher, control_cmd
subscriber, gate_mode subscriber, gear_cmd subscriber, in source order)
returns a Result which the source unwraps; a some value models an Err,
which aborts construction with a panic, modelled as Except.error. -/
def new (name : String) (ctrl0 : VehicleController)
    (decl_publisher decl_sub_control decl_sub_gate_mode decl_sub_gear :
      Option TransportError) :
    Except TransportError VehicleBridge :=
  match decl_publisher with
  | some e => .error e
  | none =>
    match decl_sub_control with
    | some e => .error e
    | none =>
      match decl_sub_gate_mode with
      | some e => .error e
      | none =>
        match decl_sub_gear with
        | some e => .error e
        | none =>
          .ok { vehicle_name := name
              , current_ackermann_cmd := initial_ackermann_cmd
              , speed := 0
              , controller := ctrl0 }

/-- Body of the control_cmd subscriber callback (vehicle_bridge.rs lines
64-72).  The cdr deserialization is external, so its outcome enters as an
Option: none models a decode failure, in which case the callback returns
before touching the store; some cmd models success, in which case the
whole stored value is replaced by cmd. -/
def control_cmd_callback (decoded : Option AckermannControlCommand)
    (stored : AckermannControlCommand) : AckermannControlCommand :=
  match decoded with
  | none => stored
  | some cmd => cmd

/-- Degrees-from-radians conversion, the real idealization of the float
to_degrees call used on steering_tire_angle. -/
noncomputable def toDegrees (x : ℝ) : ℝ :=
  x * (180 / Real.pi)

/-- The status message built by pub_current_velocity (vehicle_bridge.rs
lines 124-137): zero timestamp and empty frame id placeholders, the norm
of the velocity vector as longitudinal velocity, zero lateral velocity,
and the front-left wheel steer angle scaled by the empirical constant
-0.00866 as heading rate. -/
noncomputable def velocity_msg (actor : ActorState) : CurrentVelocity :=
  { header :=
      { ts := { sec := 0, nsec := 0 }
      , frameid := "" }
  , longitudinal_velocity := actor.velocity.norm
  , lateral_velocity := 0
  , heading_rate := actor.wheel_steer_angle_fl * (-0.00866) }

/-- Result of running (part of) one tick: the bridge state afterwards,
the effect trace, and the error of a Zenoh call whose unwrap panicked,
if any (the panic aborts the rest of the tick). -/
structure TickResult where
  bridge : VehicleBridge
  trace : List Effect
  panic : Option TransportError

/-- VehicleBridge::pub_current_velocity.  The message is built, encoded
and put on the bus; put_result models the Result of the put call, whose
Err the unwrap turns into a panic before the speed scalar is stored.  On
success the computed longitudinal velocity is stored into the speed
scalar. -/
noncomputable def pub_current_velocity (br : VehicleBridge)
    (actor : ActorState) (put_result : Option TransportError) : TickResult :=
  let msg := velocity_msg actor
  match put_result with
  | some e =>
      { bridge := br
      , trace := [Effect.publishVelocity msg]
      , panic := some e }
  | none =>
      { bridge := { br with speed := msg.longitudinal_velocity }
      , trace := [Effect.publishVelocity msg,
                  Effect.storeSpeed msg.longitudinal_velocity]
      , panic := none }

/-- VehicleBridge::update_carla_control (vehicle_bridge.rs lines
149-207): snapshot the stored command under the lock, build the target
request with the steering angle negated and converted to degrees, install
it with set_target, step the controller, and apply the resulting vehicle
control with manual_gear_shift hardcoded false and gear hardcoded 0. -/
noncomputable def update_carla_control (ctrl_step : ControlLaw)
    (br : VehicleBridge) (actor : ActorState) (elapsed_sec : ℝ) :
    VehicleBridge × List Effect :=
  let cmd := br.current_ackermann_cmd
  let steering_tire_angle := cmd.lateral.steering_tire_angle
  let speed := cmd.longitudinal.speed
  let acceleration := cmd.longitudinal.acceleration
  let current_speed := actor.velocity.norm
  let pitch_radians := actor.pitch_radians
  let target : TargetRequest :=
    { steering_angle := -(toDegrees steering_tire_angle)
    , speed := speed
    , accel := acceleration }
  let out := ctrl_step target elapsed_sec current_speed pitch_radians
  ({ br with controller := { target := target } },
   [Effect.setTarget target,
    Effect.applyControl
      { throttle := out.throttle
      , steer := out.steer
      , brake := out.brake
      , hand_brake := out.hand_brake
      , reverse := out.reverse
      , manual_gear_shift := false
      , gear := 0 }])

/-- VehicleBridge::step (vehicle_bridge.rs lines 209-212):
pub_current_velocity first, then update_carla_control.  A panic inside
pub_current_velocity aborts the tick before any actuation. -/
noncomputable def step (ctrl_step : ControlLaw) (br : VehicleBridge)
    (actor : ActorState) (elapsed_sec : ℝ)
    (put_result : Option TransportError) : TickResult :=
  let r := pub_current_velocity br actor put_result
  match r.panic with
  | some e => { bridge := r.bridge, trace := r.trace, panic := some e }
  | none =>
    let p := update_carla_control ctrl_step r.bridge actor elapsed_sec
    { bridge := p.1, trace := r.trace ++ p.2, panic := none }

/-- Iterated ticks with the same external inputs and no intervening
subscriber callback. -/
noncomputable def stepN (ctrl_step : ControlLaw) (actor : ActorState)
    (elapsed_sec : ℝ) (put_result : Option TransportError) :
    Nat → VehicleBridge → VehicleBridge
  | 0, br => br
  | n + 1, br =>
      stepN ctrl_step actor elapsed_sec put_result n
        (step ctrl_step br actor elapsed_sec put_result).bridge

/-
Interleaving model for the Command Store.  In memory the assignment of a
whole AckermannControlCommand is a sequence of per-field stores; the
Mutex makes that sequence one critical section, and the reader copy
another.  A schedule is the number k of field stores that have happened
when the read occurs; the lock discipline of the source (both the
callback assignment and the step snapshot run under the same Mutex)
restricts k to 0 or all fields.
-/

/-- Per-field store of the ts field from the incoming command. -/
def write_ts (src dst : AckermannControlCommand) : AckermannControlCommand :=
  { dst with ts := src.ts }

/-- Per-field store of the lateral field from the incoming command. -/
def write_lateral (src dst : AckermannControlCommand) :
    AckermannControlCommand :=
  { dst with lateral := src.lateral }

/-- Per-field store of the longitudinal field from the incoming
command. -/
def write_longitudinal (src dst : AckermannControlCommand) :
    AckermannControlCommand :=
  { dst with longitudinal := src.longitudinal }

/-- The field stores making up one whole-command assignment, in
declaration order. -/
def fieldWrites :
    List (AckermannControlCommand → AckermannControlCommand →
      AckermannControlCommand) :=
  [write_ts, write_lateral, write_longitudinal]

/-- The command a read observes when it happens after the first k field
stores of an update replacing pre by post. -/
def readAt (pre post : AckermannControlCommand) (k : Nat) :
    AckermannControlCommand :=
  (fieldWrites.take k).foldl (fun st w => w post st) pre

/-- Spec-side description of the target request derived from a stored
command: steering angle negated and converted to degrees, speed and
acceleration taken over unchanged.  Used to compare against what
update_carla_control actually installs. -/
noncomputable def target_of (cmd : AckermannControlCommand) : TargetRequest :=
  { steering_angle := -(toDegrees cmd.lateral.steering_tire_angle)
  , speed := cmd.longitudinal.speed
  , accel := cmd.longitudinal.acceleration }

/-- A concrete command with all scalar fields 1, used to instantiate the
interleaving model. -/
def cmdOnes : AckermannControlCommand :=
  { ts := { sec := 1, nsec := 1 }
  , lateral :=
      { ts := { sec := 1, nsec := 1 }
      , steering_tire_angle := 1
      , steering_tire_rotation_rate := 1 }
  , longitudinal :=
      { ts := { sec := 1, nsec := 1 }
      , speed := 1
      , acceleration := 1
      , jerk := 1 } }

/-- A concrete command with all scalar fields 2, used to instantiate the
interleaving model. -/
def cmdTwos : AckermannControlCommand :=
  { ts := { sec := 2, nsec := 2 }
  , lateral :=
      { ts := { sec := 2, nsec := 2 }
      , steering_tire_angle := 2
      , steering_tire_rotation_rate := 2 }
  , longitudinal :=
      { ts := { sec := 2, nsec := 2 }
      , speed := 2
      , acceleration := 2
      , jerk := 2 } }

/-- Helper: one step never changes the stored command, whether or not
the publish panicked. -/
theorem step_bridge_cmd (ctrl_step : ControlLaw) (br : VehicleBridge)
    (actor : ActorState) (elapsed_sec : ℝ)
    (put_result : Option TransportError) :
    (step ctrl_step br actor elapsed_sec put_result).bridge.current_ackermann_cmd
      = br.current_ackermann_cmd := by
  cases put_result <;> rfl

/-- Helper: iterated steps never change the stored command. -/
theorem stepN_cmd (ctrl_step : ControlLaw) (actor : ActorState)
    (elapsed_sec : ℝ) (put_result : Option TransportError) (n : Nat)
    (br : VehicleBridge) :
    (stepN ctrl_step actor elapsed_sec put_result n br).current_ackermann_cmd
      = br.current_ackermann_cmd := by
  induction n generalizing br with
  | zero => rfl
  | succ n ih =>
      calc (stepN ctrl_step actor elapsed_sec put_result (n + 1) br).current_ackermann_cmd
          = (stepN ctrl_step actor elapsed_sec put_result n
              (step ctrl_step br actor elapsed_sec put_result).bridge).current_ackermann_cmd := rfl
        _ = (step ctrl_step br actor elapsed_sec put_result).bridge.current_ackermann_cmd :=
            ih _
        _ = br.current_ackermann_cmd :=
            step_bridge_cmd ctrl_step br actor elapsed_sec put_result

/-- C1: for every stored MotionCommand with steering tire angle θ in
radians, the target request that update_carla_control installs in the
controller has steering angle −θ · (180/π), i.e. −θ in degrees, and
speed and acceleration taken directly from the stored command (the float
casts are the identity in the real model); in particular θ = π/4 maps to
−45 degrees. -/
theorem steering_target_conversion (ctrl_step : ControlLaw)
    (br : VehicleBridge) (actor : ActorState) (elapsed_sec : ℝ) :
    (update_carla_control ctrl_step br actor elapsed_sec).1.controller.target =
      { steering_angle :=
          -(br.current_ackermann_cmd.lateral.steering_tire_angle * (180 / Real.pi))
      , speed := br.current_ackermann_cmd.longitudinal.speed
      , accel := br.current_ackermann_cmd.longitudinal.acceleration } ∧
    -(toDegrees (Real.pi / 4)) = -45 := by
  refine ⟨rfl, ?_⟩
  have hπ : Real.pi ≠ 0 := Real.pi_ne_zero
  unfold toDegrees
  field_simp
  ring

/-- C2: a decode failure returns from the callback without touching the
store, so the previously stored command is retained unchanged, while a
successful decode replaces the stored command in full. -/
theorem decode_failure_keeps_stored_command
    (stored c : AckermannControlCommand) :
    control_cmd_callback none stored = stored ∧
    control_cmd_callback (some c) stored = c :=
  ⟨rfl, rfl⟩

/-- C3: under the Mutex discipline of the source (the whole-command
assignment of the callback and the whole-command copy of the step are
each one critical section), a read interleaved with one update observes
either the entire pre-update command or the entire post-update command,
never a field-wise mix. -/
theorem atomic_snapshot_no_torn_read (pre post : AckermannControlCommand)
    (k : Nat) (hk : k = 0 ∨ k = fieldWrites.length) :
    readAt pre post k = pre ∨ readAt pre post k = post := by
  rcases hk with h | h
  · subst h; exact Or.inl rfl
  · subst h; exact Or.inr rfl

/-- Witness for C3 at a concrete pair of commands with the read scheduled
after the whole update. -/
theorem atomic_snapshot_no_torn_read_witness :
    readAt cmdOnes cmdTwos 3 = cmdOnes ∨ readAt cmdOnes cmdTwos 3 = cmdTwos :=
  atomic_snapshot_no_torn_read cmdOnes cmdTwos 3 (Or.inr rfl)

/-- Sanity check of the interleaving model: without the lock discipline a
read placed in the middle of the field writes does observe a torn mix,
so the hypothesis of the atomicity theorem is doing real work. -/
theorem torn_read_possible_without_lock_discipline :
    readAt cmdOnes cmdTwos 1 ≠ cmdOnes ∧ readAt cmdOnes cmdTwos 1 ≠ cmdTwos := by
  constructor
  · intro h
    have h2 := congrArg (fun c => c.ts.sec) h
    simp [readAt, fieldWrites, write_ts, cmdOnes, cmdTwos] at h2
  · intro h
    have h2 := congrArg (fun c => c.longitudinal.speed) h
    simp [readAt, fieldWrites, write_ts, cmdOnes, cmdTwos] at h2

/-- C4: at construction the stored command is the all-zero neutral
command (every timestamp, the steering angle and rate, speed,
acceleration and jerk are zero), and stepping the freshly constructed
bridge passes the zero target request to the controller. -/
theorem neutral_initial_command_zero_target (name : String)
    (ctrl0 : VehicleController) (ctrl_step : ControlLaw)
    (actor : ActorState) (elapsed_sec : ℝ) :
    initial_ackermann_cmd.ts = { sec := 0, nsec := 0 } ∧
    initial_ackermann_cmd.lateral.ts = { sec := 0, nsec := 0 } ∧
    initial_ackermann_cmd.lateral.steering_tire_angle = 0 ∧
    initial_ackermann_cmd.lateral.steering_tire_rotation_rate = 0 ∧
    initial_ackermann_cmd.longitudinal.ts = { sec := 0, nsec := 0 } ∧
    initial_ackermann_cmd.longitudinal.speed = 0 ∧
    initial_ackermann_cmd.longitudinal.acceleration = 0 ∧
    initial_ackermann_cmd.longitudinal.jerk = 0 ∧
    new name ctrl0 none none none none =
      .ok { vehicle_name := name
          , current_ackermann_cmd := initial_ackermann_cmd
          , speed := 0
          , controller := ctrl0 } ∧
    (step ctrl_step
        { vehicle_name := name
        , current_ackermann_cmd := initial_ackermann_cmd
        , speed := 0
        , controller := ctrl0 }
        actor elapsed_sec none).bridge.controller.target =
      { steering_angle := 0, speed := 0, accel := 0 } := by
  refine ⟨rfl, rfl, rfl, rfl, rfl, rfl, rfl, rfl, rfl, ?_⟩
  have h : -(toDegrees 0) = 0 := by simp [toDegrees]
  show TargetRequest.mk (-(toDegrees 0)) 0 0 = TargetRequest.mk 0 0 0
  rw [h]

/-- C5: in every successful step the trace contains exactly one velocity
publication and exactly one actuation application, and the publication
occurs strictly before the actuation. -/
theorem publish_precedes_actuation (ctrl_step : ControlLaw)
    (br : VehicleBridge) (actor : ActorState) (elapsed_sec : ℝ) :
    ((step ctrl_step br actor elapsed_sec none).trace.filter
        Effect.isPublishVelocity).length = 1 ∧
    ((step ctrl_step br actor elapsed_sec none).trace.filter
        Effect.isApplyControl).length = 1 ∧
    (step ctrl_step br actor elapsed_sec none).trace.findIdx
        Effect.isPublishVelocity <
      (step ctrl_step br actor elapsed_sec none).trace.findIdx
        Effect.isApplyControl :=
  ⟨rfl, rfl, Nat.zero_lt_succ 2⟩

/-- C6: the heading rate of the published message is the front-left wheel
steer angle times the fixed sign-inverting constant -0.00866; at wheel
steer angle 1 the published heading rate is -0.00866. -/
theorem heading_rate_scale_constant (actor : ActorState) :
    (velocity_msg actor).heading_rate =
      actor.wheel_steer_angle_fl * (-0.00866) ∧
    (velocity_msg
        { velocity := { x := 0, y := 0, z := 0 }
        , wheel_steer_angle_fl := 1
        , pitch_radians := 0 }).heading_rate = -0.00866 := by
  refine ⟨rfl, ?_⟩
  show (1 : ℝ) * (-0.00866) = -0.00866
  rw [one_mul]

/-- C7: every successful pub_current_velocity call publishes exactly one
message whose longitudinal velocity is the norm of the velocity vector,
whose lateral velocity is 0, whose header carries a zero timestamp and
empty frame id, and then performs exactly one scalar write storing that
same longitudinal velocity into the speed scalar. -/
theorem velocity_status_message_contents (br : VehicleBridge)
    (actor : ActorState) :
    (pub_current_velocity br actor none).trace =
      [Effect.publishVelocity (velocity_msg actor),
       Effect.storeSpeed (velocity_msg actor).longitudinal_velocity] ∧
    (velocity_msg actor).longitudinal_velocity =
      Real.sqrt (actor.velocity.x ^ 2 + actor.velocity.y ^ 2 +
        actor.velocity.z ^ 2) ∧
    (velocity_msg actor).lateral_velocity = 0 ∧
    (velocity_msg actor).header.ts = { sec := 0, nsec := 0 } ∧
    (velocity_msg actor).header.frameid = "" ∧
    (pub_current_velocity br actor none).bridge.speed =
      (velocity_msg actor).longitudinal_velocity ∧
    (pub_current_velocity br actor none).panic = none :=
  ⟨rfl, rfl, rfl, rfl, rfl, rfl, rfl⟩

/-- C8: the vehicle control applied by update_carla_control always has
manual_gear_shift false and gear 0, regardless of the stored command and
the controller output, while throttle, steer and brake are exactly the
controller outputs and reverse and hand_brake are taken from the
controller output. -/
theorem gear_defaults_and_direct_mapping (ctrl_step : ControlLaw)
    (br : VehicleBridge) (actor : ActorState) (elapsed_sec : ℝ) :
    (update_carla_control ctrl_step br actor elapsed_sec).2 =
      [Effect.setTarget (target_of br.current_ackermann_cmd),
       Effect.applyControl
         { throttle := (ctrl_step (target_of br.current_ackermann_cmd)
             elapsed_sec actor.velocity.norm actor.pitch_radians).throttle
         , steer := (ctrl_step (target_of br.current_ackermann_cmd)
             elapsed_sec actor.velocity.norm actor.pitch_radians).steer
         , brake := (ctrl_step (target_of br.current_ackermann_cmd)
             elapsed_sec actor.velocity.norm actor.pitch_radians).brake
         , hand_brake := (ctrl_step (target_of br.current_ackermann_cmd)
             elapsed_sec actor.velocity.norm actor.pitch_radians).hand_brake
         , reverse := (ctrl_step (target_of br.current_ackermann_cmd)
             elapsed_sec actor.velocity.norm actor.pitch_radians).reverse
         , manual_gear_shift := false
         , gear := 0 }] :=
  rfl

/-- C9: a transport failure is fatal and propagated, never retried: a
failed publisher or subscriber declaration aborts construction with that
error, and a failed put aborts the tick with that error after exactly one
publish attempt, with no speed store, no actuation and no state change. -/
theorem transport_failure_fatal (name : String) (ctrl0 : VehicleController)
    (e : TransportError) (r2 r3 r4 : Option TransportError)
    (ctrl_step : ControlLaw) (br : VehicleBridge) (actor : ActorState)
    (elapsed_sec : ℝ) :
    new name ctrl0 (some e) r2 r3 r4 = .error e ∧
    new name ctrl0 none (some e) r3 r4 = .error e ∧
    new name ctrl0 none none (some e) r4 = .error e ∧
    new name ctrl0 none none none (some e) = .error e ∧
    (step ctrl_step br actor elapsed_sec (some e)).panic = some e ∧
    (step ctrl_step br actor elapsed_sec (some e)).trace =
      [Effect.publishVelocity (velocity_msg actor)] ∧
    (step ctrl_step br actor elapsed_sec (some e)).bridge = br :=
  ⟨rfl, rfl, rfl, rfl, rfl, rfl, rfl⟩

/-- C10: step only reads the Command Store and never writes it: one step
leaves the stored command unchanged, n iterated steps leave it unchanged,
and with no intervening callback a later step still builds its target
request from exactly the originally stored command. -/
theorem step_never_writes_command_store (ctrl_step : ControlLaw)
    (br : VehicleBridge) (actor : ActorState) (elapsed_sec : ℝ)
    (put_result : Option TransportError) (n : Nat) :
    (step ctrl_step br actor elapsed_sec put_result).bridge.current_ackermann_cmd
      = br.current_ackermann_cmd ∧
    (stepN ctrl_step actor elapsed_sec put_result n br).current_ackermann_cmd
      = br.current_ackermann_cmd ∧
    (step ctrl_step (stepN ctrl_step actor elapsed_sec none n br) actor
        elapsed_sec none).bridge.controller.target =
      target_of br.current_ackermann_cmd := by
  refine ⟨step_bridge_cmd ctrl_step br actor elapsed_sec put_result,
    stepN_cmd ctrl_step actor elapsed_sec put_result n br, ?_⟩
  have hcmd := stepN_cmd ctrl_step actor elapsed_sec none n br
  calc (step ctrl_step (stepN ctrl_step actor elapsed_sec none n br) actor
          elapsed_sec none).bridge.controller.target
      = target_of (stepN ctrl_step actor elapsed_sec none n
          br).current_ackermann_cmd := rfl
    _ = target_of br.current_ackermann_cmd := by rw [hcmd]

end ZenohCarlaBridge
